import Mathlib

/-!
Verification of the HTTP detail pane's panel composition and interaction state
machine (`src/components/view/http/http-details-pane.tsx`).

The embedding models:
* the display-name transform `makeFriendlyApiName` (with lodash's `startCase`
  modelled for ASCII input);
* the panel set builder (`renderNormalCards`, `renderBreakpointCards`,
  `renderExpandedCard`, `renderWebSocketMessages`, assembled as `buildPanels`);
* the view interaction state machine (`toggleCollapse`, `toggleExpand`) with
  the `requestAnimationFrame`-deferred clearing of the expansion-pending flag
  modelled as a frame-batched callback queue;
* the error-tag filter `ignoreError`.

JavaScript exceptions (indexing an undefined array slot and then calling a
method on it) are modelled as `Option`/explicit failure values: `none` or
`crash` marks an input on which the original code throws. JavaScript string
operations are modelled over the character list (`String.data`); for the
ASCII inputs involved, JavaScript's UTF-16 `length`/`slice` agree with
character counts.
-/

/-! ## Character-level models of the JavaScript string operations -/

/-- JavaScript `String.prototype.split` with a one-character separator, over
the character list. `[]` input yields `[[]]`, as JavaScript yields `[""]`. -/
def splitOnChar (sep : Char) : List Char → List (List Char)
  | [] => [[]]
  | c :: cs =>
    let rest := splitOnChar sep cs
    if c = sep then [] :: rest
    else
      match rest with
      | [] => [[c]]
      | w :: ws => (c :: w) :: ws

/-- JavaScript `url.split(sep)` for a one-character separator. -/
def jsSplit (s : String) (sep : Char) : List String :=
  (splitOnChar sep s.data).map String.mk

/-- JavaScript `String.prototype.trimRight`: drop trailing whitespace. -/
def trimRightStr (s : String) : String :=
  String.mk (s.data.reverse.dropWhile Char.isWhitespace).reverse

/-- JavaScript `String.prototype.startsWith`. -/
def startsWithStr (p s : String) : Bool :=
  p.data.isPrefixOf s.data

/-- JavaScript `String.prototype.includes` for a one-character needle. -/
def containsChar (s : String) (c : Char) : Bool :=
  s.data.contains c

/-! ## lodash `startCase`, modelled for ASCII input

lodash's `startCase(s)` removes apostrophes, splits `s` into words (splitting
on non-alphanumeric characters, at lower-to-upper camel boundaries, at the
last upper of an acronym run followed by a lowercase letter, and between
letters and digits), upper-cases each word's first character and joins the
words with single spaces. -/

/-- A character that can be part of a word (ASCII letters and digits). -/
def isWordChar (c : Char) : Bool := c.isAlpha || c.isDigit

/-- Split the character list into chunks at non-word characters, dropping the
separators (empty chunks are filtered by the caller). -/
def chunkWordsGo (acc : List Char) : List Char → List (List Char)
  | [] => [acc.reverse]
  | c :: rest =>
    if isWordChar c then chunkWordsGo (c :: acc) rest
    else acc.reverse :: chunkWordsGo [] rest

/-- Is there a word boundary between adjacent word characters `c` and `d`,
where `e` is the character after `d` (if any)? -/
def camelBoundary (c d : Char) (e : Option Char) : Bool :=
  (c.isLower && d.isUpper) ||
  (c.isUpper && d.isUpper && (e.map Char.isLower).getD false) ||
  (c.isDigit != d.isDigit)

/-- Split one alphanumeric chunk at camel-case boundaries. -/
def splitCamelGo (acc : List Char) : List Char → List (List Char)
  | [] => [acc.reverse]
  | [c] => [(c :: acc).reverse]
  | c :: d :: rest =>
    if camelBoundary c d rest.head? then
      (c :: acc).reverse :: splitCamelGo [] (d :: rest)
    else
      splitCamelGo (c :: acc) (d :: rest)

/-- The word list of a character list, as lodash's `words` produces it for
ASCII input. -/
def lodashWords (s : List Char) : List (List Char) :=
  (((chunkWordsGo [] s).filter (fun w => !w.isEmpty)).map
    (splitCamelGo [])).flatten.filter (fun w => !w.isEmpty)

/-- Upper-case the first character of a word. -/
def upperFirst (w : List Char) : List Char :=
  match w with
  | [] => []
  | c :: cs => c.toUpper :: cs

/-- lodash `startCase`, for ASCII input: remove apostrophes (U+0027 and
U+2019), split into words, capitalize each and join with spaces. -/
def startCase (s : String) : String :=
  let cleaned := s.data.filter (fun c => c != Char.ofNat 39 && c != Char.ofNat 8217)
  String.intercalate " " (((lodashWords cleaned).map upperFirst).map String.mk)

/-! ## The display-name transform -/

/-- The ellipsis mark (U+2026) appended by the truncation. -/
def ellipsisMark : String := String.mk [Char.ofNat 0x2026]

/-- `makeFriendlyApiName` from the source: camel-case names (no space, length
over 6) become spaced title-case; a result longer than 75 characters is cut
to its first 72 characters, right-trimmed, with an ellipsis appended. -/
def makeFriendlyApiName (rawName : String) : String :=
  let cleanedName :=
    if ¬ containsChar rawName ' ' ∧ rawName.length > 6
    then startCase rawName
    else rawName
  if cleanedName.length > 75
  then trimRightStr (String.mk (cleanedName.data.take 72)) ++ ellipsisMark
  else cleanedName

/-- The display-name transform as the spec sentence states it: the raw name is
converted to spaced title-case if and only if it contains no space and has
length over 6; if the resulting name exceeds 75 characters it is truncated to
its first 72 characters with trailing whitespace trimmed, followed by an
ellipsis mark. -/
def specFriendlyApiName (rawName : String) : String :=
  let titled :=
    if ¬ containsChar rawName ' ' ∧ rawName.length > 6
    then startCase rawName
    else rawName
  if titled.length > 75
  then trimRightStr (String.mk (titled.data.take 72)) ++ ellipsisMark
  else titled

/-! ## Data model -/

/-- The fixed, ordered panel key enumeration (`cardKeys` in the source; the
source key `export` is a Lean keyword and is rendered `exportCard`). -/
inductive CardKey
  | api
  | request
  | requestBody
  | response
  | responseBody
  | webSocketMessages
  | webSocketClose
  | performance
  | exportCard
deriving DecidableEq

/-- The response slot of an exchange: `undefined`, the literal `aborted`, or a
completed response object. -/
inductive HttpResponseState
  | absent
  | aborted
  | present
deriving DecidableEq

/-- The facts about one exchange that the detail pane consumes. Breakpoint
drafts, headers and bodies are owned by external collaborators; only their
presence matters here. -/
structure HttpExchange where
  requestUrl : String
  hasRequestBody : Bool
  hasResponseBody : Bool
  response : HttpResponseState
  isWebSocket : Bool
  wasAccepted : Bool
  hasCloseState : Bool
  requestBreakpoint : Bool
  responseBreakpoint : Bool
  apiMatched : Bool
  apiServiceName : String
  tags : List String

/-- Modelled from the spec: `isSuccessfulExchange` is defined in the types
module, which is not among the given source files; per the spec a response
body may be shown full-size "only if the exchange is a completed success",
modelled as the response slot holding a completed response. -/
def isSuccessfulExchange (ex : HttpExchange) : Bool :=
  ex.response = HttpResponseState.present

/-- The panel descriptors the builder emits (the `divider` is the
bottom-anchoring spacer pushed before performance and export). -/
inductive Panel
  | api
  | apiPlaceholder
  | request
  | requestBody
  | responseAborted
  | response
  | responseBody
  | webSocketMessages
  | webSocketClose
  | divider
  | performance
  | exportCard
deriving DecidableEq

/-! ## Panel set builder -/

/-- The display name shown for a matched API operation, as computed in
`render()`: present only when the exchange matched a documented operation. -/
def exchangeApiName (ex : HttpExchange) : Option String :=
  if ex.apiMatched then some (makeFriendlyApiName ex.apiServiceName) else none

/-- `renderApiCard`: nothing without a name; a placeholder variant for
non-paid users; the full card otherwise. -/
def renderApiCard (isPaidUser : Bool) (apiName : Option String) : Option Panel :=
  match apiName with
  | none => none
  | some _ => some (if isPaidUser then Panel.api else Panel.apiPlaceholder)

/-- The filename-prefix derivation in `renderWebSocketMessages`:
`urlParts = url.split('/')`, `domain = urlParts[2].split(':')[0]`,
`baseName = urlParts.length >= 2 ? urlParts[urlParts.length - 1] : undefined`,
then the template `` `${domain}${baseName ? `- ${baseName}` : ''} - websocket` ``.
`urlParts[2]` is `undefined` when the URL has fewer than three '/'-separated
segments, and calling `.split` on it throws — modelled as `none`. An empty
`baseName` is falsy in JavaScript, so it contributes nothing. -/
def webSocketFilenamePre (url : String) : Option String :=
  let urlParts := jsSplit url '/'
  match urlParts[2]? with
  | none => none
  | some part2 =>
    let domain := (jsSplit part2 ':').headD ""
    let baseName := if urlParts.length ≥ 2 then urlParts.getLast? else none
    some (domain ++
      (match baseName with
       | some b => if b = "" then "" else "- " ++ b
       | none => "") ++ " - websocket")

/-- `renderWebSocketMessages`: builds the stream-message card; throws (`none`)
exactly when the filename-prefix derivation throws. -/
def renderWebSocketMessages (ex : HttpExchange) : Option Panel :=
  match webSocketFilenamePre ex.requestUrl with
  | some _ => some Panel.webSocketMessages
  | none => none

/-- What rendering the single expanded card can produce: a panel, the
defensive report-and-render-nothing outcome, or a thrown exception. -/
inductive ExpandResult
  | panel (p : Panel)
  | invalidViewState
  | crash
deriving DecidableEq

/-- `renderExpandedCard`: `requestBody` always renders; `responseBody` only
for a successful exchange or a response breakpoint; `webSocketMessages` only
for an accepted WebSocket (and its renderer may throw on a malformed URL);
anything else reports an error to the diagnostics collaborator and renders
nothing. -/
def renderExpandedCard (key : CardKey) (ex : HttpExchange) : ExpandResult :=
  if key = CardKey.requestBody then
    ExpandResult.panel Panel.requestBody
  else if key = CardKey.responseBody ∧
      (isSuccessfulExchange ex || ex.responseBreakpoint) = true then
    ExpandResult.panel Panel.responseBody
  else if key = CardKey.webSocketMessages ∧
      (ex.isWebSocket && ex.wasAccepted) = true then
    match renderWebSocketMessages ex with
    | some p => ExpandResult.panel p
    | none => ExpandResult.crash
  else
    ExpandResult.invalidViewState

/-- `renderBreakpointCards`: for a request breakpoint, the breakpoint request
card and its body; for a response breakpoint, the API card (if any), the
request card, the request body if declared, then the breakpoint response card
and its body. -/
def renderBreakpointCards (isPaidUser : Bool) (ex : HttpExchange) : List Panel :=
  if ex.requestBreakpoint then
    [Panel.request, Panel.requestBody]
  else
    (renderApiCard isPaidUser (exchangeApiName ex)).toList ++
    [Panel.request] ++
    (if ex.hasRequestBody then [Panel.requestBody] else []) ++
    [Panel.response, Panel.responseBody]

/-- `renderNormalCards`: API card (if matched), request card, request body if
declared; then the response slot (aborted notice / full response with body if
declared / nothing); then, for an accepted WebSocket, the messages card (whose
renderer may throw, aborting the whole build — `none`) and the close card if a
close state exists, or otherwise the bottom divider, performance and export
cards. -/
def renderNormalCards (isPaidUser : Bool) (ex : HttpExchange) : Option (List Panel) :=
  let apiCards := (renderApiCard isPaidUser (exchangeApiName ex)).toList
  let requestCards :=
    [Panel.request] ++ (if ex.hasRequestBody then [Panel.requestBody] else [])
  let responseCards :=
    match ex.response with
    | HttpResponseState.aborted => [Panel.responseAborted]
    | HttpResponseState.present =>
      [Panel.response] ++ (if ex.hasResponseBody then [Panel.responseBody] else [])
    | HttpResponseState.absent => []
  let upper := apiCards ++ requestCards ++ responseCards
  if ex.isWebSocket && ex.wasAccepted then
    match renderWebSocketMessages ex with
    | none => none
    | some wsCard =>
      some (upper ++ [wsCard] ++
        (if ex.hasCloseState then [Panel.webSocketClose] else []))
  else
    some (upper ++ [Panel.divider, Panel.performance, Panel.exportCard])

/-- The panel set builder, as `render()` assembles it below the header slot:
with an expanded card, exactly that card (or nothing after an invalid-state
report, or a thrown exception); otherwise the breakpoint cards when a
breakpoint is pending, else the normal cards. -/
def buildPanels (isPaidUser : Bool) (expandedCard : Option CardKey)
    (ex : HttpExchange) : Option (List Panel) :=
  match expandedCard with
  | some key =>
    match renderExpandedCard key ex with
    | ExpandResult.panel p => some [p]
    | ExpandResult.invalidViewState => some []
    | ExpandResult.crash => none
  | none =>
    if ex.requestBreakpoint || ex.responseBreakpoint then
      some (renderBreakpointCards isPaidUser ex)
    else
      renderNormalCards isPaidUser ex

/-! ## View interaction state machine -/

/-- The mutable view state: per-key collapsed flags and the single expanded
card selector (on the UI store), the expansion-completed flag (on the
component; the pending flag of the spec is its negation), and the number of
scheduled, not-yet-run animation-frame callbacks (each one sets
`expandCompleted := true`). -/
structure ViewState where
  collapsed : CardKey → Bool
  expandedCard : Option CardKey
  expandCompleted : Bool
  frameQueue : Nat

/-- The keys `toggleExpand` accepts (the three body/stream cards). -/
def expandableKey (key : CardKey) : Prop :=
  key = CardKey.requestBody ∨ key = CardKey.responseBody ∨
  key = CardKey.webSocketMessages

instance (key : CardKey) : Decidable (expandableKey key) := by
  unfold expandableKey
  infer_instance

/-- `toggleCollapse` on a known key: flip that key's collapsed flag and clear
the expanded card. -/
def toggleCollapse (key : CardKey) (s : ViewState) : ViewState :=
  { s with
    collapsed := fun k => if k = key then !(s.collapsed k) else s.collapsed k,
    expandedCard := none }

/-- The source key strings (`cardKeys`). -/
def cardKeyName : CardKey → String
  | CardKey.api => "api"
  | CardKey.request => "request"
  | CardKey.requestBody => "requestBody"
  | CardKey.response => "response"
  | CardKey.responseBody => "responseBody"
  | CardKey.webSocketMessages => "webSocketMessages"
  | CardKey.webSocketClose => "webSocketClose"
  | CardKey.performance => "performance"
  | CardKey.exportCard => "export"

/-- Look a raw string key up among the view-card states (the store holds one
entry per `cardKeys` member). -/
def parseCardKey (key : String) : Option CardKey :=
  if key = "api" then some CardKey.api
  else if key = "request" then some CardKey.request
  else if key = "requestBody" then some CardKey.requestBody
  else if key = "response" then some CardKey.response
  else if key = "responseBody" then some CardKey.responseBody
  else if key = "webSocketMessages" then some CardKey.webSocketMessages
  else if key = "webSocketClose" then some CardKey.webSocketClose
  else if key = "performance" then some CardKey.performance
  else if key = "export" then some CardKey.exportCard
  else none

/-- `toggleCollapse` as typed in the source — `key` is an arbitrary string
cast to a card key. An unknown key finds no entry in `viewCardStates`, and
flipping the `collapsed` field of `undefined` throws — modelled as `none`. -/
def toggleCollapseRaw (key : String) (s : ViewState) : Option ViewState :=
  (parseCardKey key).map (fun k => toggleCollapse k s)

/-- `toggleExpand`: if `key` is already the expanded card, clear the
expansion; else if `key` is expandable, un-collapse it, make it the expanded
card, mark the expansion transition pending (`expandCompleted := false`) and
schedule an animation-frame callback that will set `expandCompleted := true`;
else do nothing. -/
def toggleExpand (key : CardKey) (s : ViewState) : ViewState :=
  if s.expandedCard = some key then
    { s with expandedCard := none }
  else if expandableKey key then
    { s with
      collapsed := fun k => if k = key then false else s.collapsed k,
      expandedCard := some key,
      expandCompleted := false,
      frameQueue := s.frameQueue + 1 }
  else
    s

/-- Run `n` queued animation-frame callbacks over the `expandCompleted` flag
(each sets it to `true`), returning the final flag and how many of the
callbacks actually changed it from `false` to `true`. -/
def runCallbacks : Nat → Bool → Bool × Nat
  | 0, b => (b, 0)
  | n + 1, b =>
    let r := runCallbacks n true
    (r.1, (if b then 0 else 1) + r.2)

/-- One animation frame: every callback scheduled so far runs, in order,
before the next paint. Returns the settled state and the number of
pending-to-cleared transitions that fired during the frame. -/
def runFrame (s : ViewState) : ViewState × Nat :=
  let r := runCallbacks s.frameQueue s.expandCompleted
  ({ s with expandCompleted := r.1, frameQueue := 0 }, r.2)

/-! ## Error-tag families and the ignore-error action -/

/-- Membership in the closed set of error-tag families the error header
recognizes and the ignore action clears. -/
def isErrorTag (t : String) : Bool :=
  startsWithStr "passthrough-error:" t ||
  startsWithStr "passthrough-tls-error:" t ||
  startsWithStr "client-error:" t ||
  t = "header-overflow" || t = "http-2"

/-- `ignoreError`: one atomic update replacing the tag list with its
non-error tags. -/
def ignoreError (tags : List String) : List String :=
  tags.filter (fun t => !(isErrorTag t))

/-! ## Concrete states and exchanges used by witnesses and counterexamples -/

/-- A view state with nothing collapsed, nothing expanded, no pending
transition and no scheduled callback. -/
def restViewState : ViewState :=
  { collapsed := fun _ => false,
    expandedCard := none,
    expandCompleted := true,
    frameQueue := 0 }

/-- A view state in which every card is collapsed and the response body is
the expanded card. -/
def expandedElsewhereState : ViewState :=
  { collapsed := fun _ => true,
    expandedCard := some CardKey.responseBody,
    expandCompleted := true,
    frameQueue := 0 }

/-- A (transition-unreachable) view state whose expanded card is the
non-expandable `api` key. -/
def apiExpandedState : ViewState :=
  { collapsed := fun _ => false,
    expandedCard := some CardKey.api,
    expandCompleted := true,
    frameQueue := 0 }

/-- Scenario A's exchange: normal, both bodies declared, completed response,
not a WebSocket, no matched API operation. -/
def scenarioAExchange : HttpExchange :=
  { requestUrl := "https://example.test/path",
    hasRequestBody := true,
    hasResponseBody := true,
    response := HttpResponseState.present,
    isWebSocket := false,
    wasAccepted := false,
    hasCloseState := false,
    requestBreakpoint := false,
    responseBreakpoint := false,
    apiMatched := false,
    apiServiceName := "",
    tags := [] }

/-- An accepted WebSocket whose request URL has a single '/'-separated
segment, so `url.split('/')[2]` is `undefined`. -/
def shortUrlWebSocket : HttpExchange :=
  { requestUrl := "x",
    hasRequestBody := false,
    hasResponseBody := false,
    response := HttpResponseState.present,
    isWebSocket := true,
    wasAccepted := true,
    hasCloseState := false,
    requestBreakpoint := false,
    responseBreakpoint := false,
    apiMatched := false,
    apiServiceName := "",
    tags := [] }

/-- An aborted exchange that still declares a response body, and is an
accepted WebSocket with a one-segment URL. -/
def abortedShortUrlWebSocket : HttpExchange :=
  { shortUrlWebSocket with
    hasResponseBody := true,
    response := HttpResponseState.aborted }

/-- An aborted plain HTTP exchange that declares a response body. -/
def abortedExchange : HttpExchange :=
  { scenarioAExchange with response := HttpResponseState.aborted }


/-! ## Sanity checks of the embedding on concrete inputs -/

example : startCase "getUserAccountDetails" = "Get User Account Details" := by decide

example : jsSplit "wss://host.test:443/some/path" '/' =
    ["wss:", "", "host.test:443", "some", "path"] := by decide

example : webSocketFilenamePre "wss://host.test:443/some/path" =
    some "host.test- path - websocket" := by decide

example : ignoreError ["client-error:reset", "header-overflow", "keep"] = ["keep"] := by
  decide

/-! ## Helper lemmas -/

/-- Animation-frame callbacks run over an already-cleared flag change
nothing and fire no transition. -/
theorem runCallbacks_true (n : Nat) : runCallbacks n true = (true, 0) := by
  induction n with
  | zero => rfl
  | succ n ih => simp [runCallbacks, ih]

/-- Looking a known card key's own name back up finds exactly that key. -/
theorem parseCardKey_name (key : CardKey) : parseCardKey (cardKeyName key) = some key := by
  cases key <;> rfl

/-! ## Claim C1 -/

/-- C1: for every normal (non-breakpoint) exchange that declares both bodies,
has a completed (success) response, is not a WebSocket, matched no API
operation, with a paid user and no expanded card, the panel builder produces
exactly `[request, requestBody, response, responseBody, divider, performance,
export]`. -/
theorem buildPanels_scenarioA (ex : HttpExchange)
    (hreq : ex.requestBreakpoint = false) (hres : ex.responseBreakpoint = false)
    (hrb : ex.hasRequestBody = true) (hsb : ex.hasResponseBody = true)
    (hr : ex.response = HttpResponseState.present)
    (hws : ex.isWebSocket = false)
    (hapi : ex.apiMatched = false) :
    buildPanels true none ex =
      some [Panel.request, Panel.requestBody, Panel.response, Panel.responseBody,
        Panel.divider, Panel.performance, Panel.exportCard] := by
  simp [buildPanels, renderNormalCards, renderApiCard, exchangeApiName,
    hreq, hres, hrb, hsb, hr, hws, hapi]

/-- C1 witness: scenario A evaluated on a concrete exchange. -/
theorem buildPanels_scenarioA_witness :
    buildPanels true none scenarioAExchange =
      some [Panel.request, Panel.requestBody, Panel.response, Panel.responseBody,
        Panel.divider, Panel.performance, Panel.exportCard] :=
  buildPanels_scenarioA scenarioAExchange rfl rfl rfl rfl rfl rfl rfl

/-! ## Claim C2 -/

/-- C2 counterexample: from a state whose expanded card is `responseBody` and
whose `requestBody` card is collapsed, two `toggleExpand(requestBody)` calls
restore neither `expandedCard` (it ends absent) nor `collapsed[requestBody]`
(it ends forced to `false`). -/
theorem toggleExpand_twice_cex :
    (toggleExpand CardKey.requestBody
        (toggleExpand CardKey.requestBody expandedElsewhereState)).expandedCard ≠
      expandedElsewhereState.expandedCard ∧
    (toggleExpand CardKey.requestBody
        (toggleExpand CardKey.requestBody expandedElsewhereState)).collapsed
        CardKey.requestBody ≠
      expandedElsewhereState.collapsed CardKey.requestBody := by
  decide

/-- C2 amended: two successive `toggleExpand(key)` calls on an expandable key
restore `expandedCard` and `collapsed[key]` to their prior values provided the
prior `expandedCard` was absent or `key` itself and the prior `collapsed[key]`
was `false` (expansion forces `collapsed[key] := false` and collapsing back
does not restore it, and expanding over a different expanded card ends with no
expansion rather than the prior one). -/
theorem toggleExpand_twice_restores (s : ViewState) (key : CardKey)
    (hkey : expandableKey key)
    (hcard : s.expandedCard = none ∨ s.expandedCard = some key)
    (hcol : s.collapsed key = false) :
    (toggleExpand key (toggleExpand key s)).expandedCard = s.expandedCard ∧
    (toggleExpand key (toggleExpand key s)).collapsed key = s.collapsed key := by
  rcases hcard with h | h <;>
    simp [toggleExpand, h, hkey, hcol]

/-- C2 witness: the amended law evaluated at a concrete state and key. -/
theorem toggleExpand_twice_restores_witness :
    (toggleExpand CardKey.requestBody
        (toggleExpand CardKey.requestBody restViewState)).expandedCard =
      restViewState.expandedCard ∧
    (toggleExpand CardKey.requestBody
        (toggleExpand CardKey.requestBody restViewState)).collapsed
        CardKey.requestBody =
      restViewState.collapsed CardKey.requestBody :=
  toggleExpand_twice_restores restViewState CardKey.requestBody
    (Or.inl rfl) (Or.inl rfl) rfl

/-! ## Claim C3 -/

/-- C3 counterexample: `toggleCollapse` on the unknown key "bogus" finds no
card state and throws (`none`) rather than leaving the state unchanged; and
`toggleExpand(api)` on a state whose expanded card is `api` clears the
expansion rather than being a no-op. -/
theorem toggle_totality_cex :
    toggleCollapseRaw "bogus" restViewState = none ∧
    (toggleExpand CardKey.api apiExpandedState).expandedCard ≠
      apiExpandedState.expandedCard := by
  exact ⟨rfl, by decide⟩

/-- C3 amended: `toggleExpand` on a non-expandable key is a no-op whenever
that key is not the currently expanded card (a state no transition can
produce; from such a state it instead clears the expansion); `toggleCollapse`
on any known panel key succeeds without error; but on an unknown key the
card-state lookup finds nothing and the flip throws instead of being a
no-op. -/
theorem toggle_totality_amended (s : ViewState) (key : CardKey) (rawKey : String)
    (hkey : ¬ expandableKey key) (hcur : s.expandedCard ≠ some key)
    (hraw : parseCardKey rawKey = none) :
    toggleExpand key s = s ∧
    toggleCollapseRaw (cardKeyName key) s = some (toggleCollapse key s) ∧
    toggleCollapseRaw rawKey s = none := by
  refine ⟨?_, ?_, ?_⟩
  · unfold toggleExpand
    rw [if_neg hcur, if_neg hkey]
  · unfold toggleCollapseRaw
    rw [parseCardKey_name]
    rfl
  · unfold toggleCollapseRaw
    rw [hraw]
    rfl

/-- C3 witness: the amended law evaluated at a concrete state, the `api` key
and the unknown key "bogus". -/
theorem toggle_totality_amended_witness :
    toggleExpand CardKey.api restViewState = restViewState ∧
    toggleCollapseRaw (cardKeyName CardKey.api) restViewState =
      some (toggleCollapse CardKey.api restViewState) ∧
    toggleCollapseRaw "bogus" restViewState = none :=
  toggle_totality_amended restViewState CardKey.api "bogus"
    (by decide) (by decide) rfl

/-! ## Claim C4 -/

/-- C4 counterexample: on an accepted WebSocket whose URL has one segment,
the `webSocketMessages` key is legal, yet rendering the expanded card throws
instead of yielding the descriptor (or reporting and yielding nothing). -/
theorem renderExpandedCard_cex :
    shortUrlWebSocket.isWebSocket = true ∧
    shortUrlWebSocket.wasAccepted = true ∧
    renderExpandedCard CardKey.webSocketMessages shortUrlWebSocket =
      ExpandResult.crash := by
  decide

/-- C4 amended: an expanded `responseBody` that is neither a completed
success nor under a response breakpoint, or an expanded `webSocketMessages`
without an accepted WebSocket, reports the invalid view state and yields no
panel; a legal expanded key yields exactly its own descriptor — except that a
legal `webSocketMessages` expansion throws instead when the request URL has
fewer than three '/'-separated segments. -/
theorem renderExpandedCard_amended (ex : HttpExchange) (key : CardKey) :
    (key = CardKey.responseBody →
      (isSuccessfulExchange ex || ex.responseBreakpoint) = false →
      renderExpandedCard key ex = ExpandResult.invalidViewState) ∧
    (key = CardKey.webSocketMessages →
      (ex.isWebSocket && ex.wasAccepted) = false →
      renderExpandedCard key ex = ExpandResult.invalidViewState) ∧
    renderExpandedCard CardKey.requestBody ex =
      ExpandResult.panel Panel.requestBody ∧
    ((isSuccessfulExchange ex || ex.responseBreakpoint) = true →
      renderExpandedCard CardKey.responseBody ex =
        ExpandResult.panel Panel.responseBody) ∧
    ((ex.isWebSocket && ex.wasAccepted) = true →
      3 ≤ (jsSplit ex.requestUrl '/').length →
      renderExpandedCard CardKey.webSocketMessages ex =
        ExpandResult.panel Panel.webSocketMessages) := by
  refine ⟨?_, ?_, ?_, ?_, ?_⟩
  · rintro rfl hcond
    simp [renderExpandedCard, hcond]
  · rintro rfl hcond
    simp [renderExpandedCard, hcond]
  · simp [renderExpandedCard]
  · intro hcond
    simp [renderExpandedCard, hcond]
  · intro hcond hlen
    have h2 : 2 < (jsSplit ex.requestUrl '/').length := hlen
    simp only [renderExpandedCard, renderWebSocketMessages, webSocketFilenamePre,
      List.getElem?_eq_getElem h2]
    simp [hcond]

/-! ## Claim C5 -/

/-- C5: the display-name transform equals, on every input, the transform the
spec sentence describes (title-case applied exactly when the name has no
space and length over 6; results over 75 characters cut to their first 72
characters, right-trimmed, plus an ellipsis mark), and it behaves as scenario
D states on a camel-case name and on a 90-character name. -/
theorem makeFriendlyApiName_spec :
    (∀ rawName, makeFriendlyApiName rawName = specFriendlyApiName rawName) ∧
    makeFriendlyApiName "getUserAccountDetails" = "Get User Account Details" ∧
    makeFriendlyApiName (String.mk (List.replicate 90 'a')) =
      String.mk ('A' :: List.replicate 71 'a') ++ ellipsisMark :=
  ⟨fun _ => rfl, by decide, by decide⟩

/-! ## Claim C6 -/

/-- C6: the ignore-error action keeps a subsequence of the original tags
(every survivor in original order), removes every occurrence of every
error-family tag, and keeps every occurrence of every other tag. -/
theorem ignoreError_spec (tags : List String) :
    List.Sublist (ignoreError tags) tags ∧
    (∀ t : String, List.count t (ignoreError tags) =
      if isErrorTag t then 0 else List.count t tags) := by
  constructor
  · exact List.filter_sublist tags
  · intro t
    by_cases h : isErrorTag t = true
    · simp only [h, if_pos]
      refine List.count_eq_zero.2 (fun hmem => ?_)
      have := List.of_mem_filter hmem
      simp [h] at this
    · simp only [h, if_neg, Bool.not_eq_true]
      have hp : (fun u => !(isErrorTag u)) t = true := by
        simp [Bool.not_eq_true] at h
        simp [h]
      exact List.count_filter hp

/-! ## Claim C7 -/

/-- C7 counterexample: a normal aborted exchange that declares a response
body but is also an accepted WebSocket with a one-segment URL makes the whole
build throw, so no aborted-notice panel is emitted at all. -/
theorem buildPanels_aborted_cex :
    abortedShortUrlWebSocket.requestBreakpoint = false ∧
    abortedShortUrlWebSocket.responseBreakpoint = false ∧
    abortedShortUrlWebSocket.response = HttpResponseState.aborted ∧
    abortedShortUrlWebSocket.hasResponseBody = true ∧
    buildPanels true none abortedShortUrlWebSocket = none := by
  decide

/-- C7 amended: for every normal exchange with an aborted response, provided
it is not an accepted WebSocket whose URL has fewer than three '/'-separated
segments (on which the build throws), the builder yields a panel list that
contains the aborted-notice response panel and neither response panel nor
response-body panel, even when a response body is declared. -/
theorem buildPanels_aborted_amended (isPaidUser : Bool) (ex : HttpExchange)
    (hreq : ex.requestBreakpoint = false) (hres : ex.responseBreakpoint = false)
    (hab : ex.response = HttpResponseState.aborted)
    (hok : (ex.isWebSocket && ex.wasAccepted) = true →
      3 ≤ (jsSplit ex.requestUrl '/').length) :
    (buildPanels isPaidUser none ex).isSome = true ∧
    Panel.responseAborted ∈ (buildPanels isPaidUser none ex).getD [] ∧
    Panel.responseBody ∉ (buildPanels isPaidUser none ex).getD [] := by
  by_cases hws : (ex.isWebSocket && ex.wasAccepted) = true
  · have h2 : 2 < (jsSplit ex.requestUrl '/').length := hok hws
    simp only [buildPanels, hreq, hres, renderNormalCards, renderWebSocketMessages,
      webSocketFilenamePre, List.getElem?_eq_getElem h2, hab, hws]
    simp [renderApiCard, exchangeApiName]
    split_ifs <;> simp
  · simp only [Bool.not_eq_true] at hws
    simp only [buildPanels, hreq, hres, renderNormalCards, hab, hws]
    simp [renderApiCard, exchangeApiName]
    split_ifs <;> simp

/-- C7 witness: the amended statement evaluated on a concrete aborted plain
HTTP exchange that declares a response body. -/
theorem buildPanels_aborted_amended_witness :
    (buildPanels true none abortedExchange).isSome = true ∧
    Panel.responseAborted ∈ (buildPanels true none abortedExchange).getD [] ∧
    Panel.responseBody ∉ (buildPanels true none abortedExchange).getD [] :=
  buildPanels_aborted_amended true abortedExchange rfl rfl rfl
    (fun h => absurd h (by decide))

/-! ## Claim C8 -/

/-- C8: after any `toggleCollapse(key)` — whatever the prior state, including
one with an unrelated expanded card — the expanded card is absent, the key's
collapsed flag is flipped and every other key's flag is unchanged. -/
theorem toggleCollapse_clears (s : ViewState) (key : CardKey) :
    (toggleCollapse key s).expandedCard = none ∧
    (toggleCollapse key s).collapsed =
      (fun k => if k = key then !(s.collapsed k) else s.collapsed k) ∧
    (toggleCollapse key s).expandCompleted = s.expandCompleted :=
  ⟨rfl, rfl, rfl⟩

/-! ## Claim C9 -/

/-- C9: when a second expansion begins before the first expansion's pending
flag has been cleared (no frame ran in between), the interrupting toggle
leaves the flag pending — the stale scheduled clear cannot run before the
settling frame, since callbacks only run at frames; both callbacks are still
queued; at the settling frame exactly one pending-to-cleared transition
fires (the remaining callbacks re-set an already-true flag); and a further
frame on the settled state fires none. -/
theorem expansion_pending_clear_safe (s : ViewState) (k1 k2 : CardKey)
    (h1 : expandableKey k1) (h2 : expandableKey k2) (hne : k2 ≠ k1)
    (hcur : s.expandedCard ≠ some k1) :
    (toggleExpand k2 (toggleExpand k1 s)).expandCompleted = false ∧
    2 ≤ (toggleExpand k2 (toggleExpand k1 s)).frameQueue ∧
    (runFrame (toggleExpand k2 (toggleExpand k1 s))).1.expandCompleted = true ∧
    (runFrame (toggleExpand k2 (toggleExpand k1 s))).2 = 1 ∧
    (runFrame ((runFrame (toggleExpand k2 (toggleExpand k1 s))).1)).2 = 0 := by
  have hne' : ¬ (some k1 = some k2) := by
    simp [Ne.symm hne]
  simp [toggleExpand, hcur, h1, hne', h2, runFrame, runCallbacks, runCallbacks_true]

/-- C9 witness: the cancellation-safety law evaluated at a concrete state
with a `requestBody` expansion interrupted by a `responseBody` expansion. -/
theorem expansion_pending_clear_safe_witness :
    (toggleExpand CardKey.responseBody
        (toggleExpand CardKey.requestBody restViewState)).expandCompleted = false ∧
    2 ≤ (toggleExpand CardKey.responseBody
        (toggleExpand CardKey.requestBody restViewState)).frameQueue ∧
    (runFrame (toggleExpand CardKey.responseBody
        (toggleExpand CardKey.requestBody restViewState))).1.expandCompleted = true ∧
    (runFrame (toggleExpand CardKey.responseBody
        (toggleExpand CardKey.requestBody restViewState))).2 = 1 ∧
    (runFrame ((runFrame (toggleExpand CardKey.responseBody
        (toggleExpand CardKey.requestBody restViewState))).1)).2 = 0 :=
  expansion_pending_clear_safe restViewState CardKey.requestBody CardKey.responseBody
    (by decide) (by decide) (by decide) (by decide)

/-! ## Claim C10 -/

/-- C10: there is an accepted WebSocket exchange whose URL splits into fewer
than three '/'-separated segments on which the filename-prefix derivation
(which unconditionally indexes the third segment and calls split on it)
throws, so the messages card — and with it the whole normal-card build —
fails rather than yielding a panel: the derivation is defined on only part of
the URL-string domain. -/
theorem webSocketMessages_crash :
    (jsSplit shortUrlWebSocket.requestUrl '/').length < 3 ∧
    shortUrlWebSocket.isWebSocket = true ∧
    shortUrlWebSocket.wasAccepted = true ∧
    webSocketFilenamePre shortUrlWebSocket.requestUrl = none ∧
    renderWebSocketMessages shortUrlWebSocket = none ∧
    renderNormalCards true shortUrlWebSocket = none := by
  decide
